import Mathlib

/-!
Shallow embedding of the err-aws chatbot plugin (src/aws.py).

Each chat-command handler of the `AWS` plugin class is modelled as a pure
function from an explicit `World` state (the plugin configuration, the cloud
provider state seen through the SDK, the RSS feed contents, and the
process-global socket default timeout) to an `Outcome`: the state after the
call, the chat messages sent, the trace of SDK operations performed, and the
Python exception raised, if any.  Machine integers are modelled as `Int`.
-/

namespace ErrAws

/-- Python values that appear in the instance-details dict built by
`_basic_instance_details`: strings and lists of strings. -/
inductive PyVal where
  | str : String → PyVal
  | strList : List String → PyVal
  deriving DecidableEq

/-- Python exceptions and optparse failures the handlers can raise. -/
inductive PyError where
  | nameError : String → PyError
  | attributeError : String → PyError
  | indexError : PyError
  | optError : String → PyError
  deriving DecidableEq

/-- Operations performed against the external SDK or feed endpoint.
For `create_node`, only the `name` and `ex_metadata` arguments are recorded;
the other arguments (image, size, keypair, subnet, block device mappings) do
not matter for the properties considered here. -/
inductive SdkOp where
  | connect : SdkOp
  | listNodes : SdkOp
  | listSizes : SdkOp
  | rebootNode : String → SdkOp
  | destroyNode : String → SdkOp
  | createNode : String → List (String × String) → SdkOp
  | fetchFeed : String → SdkOp
  deriving DecidableEq

/-- A node returned by the SDK listing; `groups`, `key_name` and
`instance_type` model the fields of `node.extra` that the plugin reads. -/
structure Node where
  id : String
  name : String
  state : Nat
  private_ips : List String
  public_ips : List String
  groups : List String
  key_name : String
  instance_type : String
  deriving DecidableEq

/-- A machine size returned by `driver.list_sizes()`. -/
structure NodeSize where
  id : String
  name : String
  deriving DecidableEq

/-- An entry of the parsed RSS feed; the three fields the plugin reads. -/
structure FeedEntry where
  published : String
  title : String
  summary : String
  deriving DecidableEq

/-- The plugin configuration (see `get_configuration_template`): a flat
mapping loaded once at startup. -/
structure Config where
  access_id : Option String
  secret_key : Option String
  ami : Option String
  keypair : Option String
  subnet_id : Option String
  route_table_id : Option String
  volume_size : Int
  instance_type : Option String
  datacenter : Option String
  puppet : Bool
  deriving DecidableEq

/-- A value stored by the option parser for one destination. -/
inductive OptVal where
  | str : String → OptVal
  | int : Int → OptVal
  | bool : Bool → OptVal
  | none : OptVal
  deriving DecidableEq

/-- One `parser.add_option` declaration: the long option name (which is also
the destination), whether it has `type=int`, and whether it is declared with
`action=store_false` (and hence takes no value). -/
structure OptDef where
  name : String
  isInt : Bool
  isStoreFalse : Bool
  deriving DecidableEq

/-- Read an option value from the parsed-values association list. -/
def getOpt (opts : List (String × OptVal)) (k : String) : OptVal :=
  match opts.find? (fun kv => kv.1 == k) with
  | some kv => kv.2
  | Option.none => OptVal.none

/-- Store an option value: optparse updates the entry for an existing
destination. -/
def setOpt (opts : List (String × OptVal)) (k : String) (v : OptVal) : List (String × OptVal) :=
  opts.map (fun kv => if kv.1 == k then (k, v) else kv)

/-- Split a character list at the first occurrence of the = sign, as optparse
does for a long option written as one token. -/
def splitFirstEq : List Char → List Char × Option (List Char)
  | [] => ([], Option.none)
  | '=' :: rest => ([], some rest)
  | c :: rest =>
    match splitFirstEq rest with
    | (nm, v) => (c :: nm, v)

/-- Digits of a decimal numeral to its value. -/
def digitsVal (cs : List Char) : Option Nat :=
  if cs = [] then Option.none
  else if cs.all (fun c => c.isDigit) then
    some (cs.foldl (fun a c => a * 10 + (c.toNat - 48)) 0)
  else Option.none

/-- Modelled after Python int() as used by optparse for type=int options:
an optional sign followed by decimal digits (whitespace, underscores and
non-decimal bases are not modelled). -/
def pyInt (s : String) : Option Int :=
  match s.data with
  | '-' :: cs => (digitsVal cs).map (fun n => -(n : Int))
  | '+' :: cs => (digitsVal cs).map (fun n => (n : Int))
  | cs => (digitsVal cs).map (fun n => (n : Int))

/-- Convert a supplied option value to the stored `OptVal`, checking the
declared type, as optparse does. -/
def checkVal (d : OptDef) (v : String) : Except PyError OptVal :=
  if d.isInt then
    match pyInt v with
    | some i => Except.ok (OptVal.int i)
    | Option.none =>
      Except.error (PyError.optError ("option --" ++ d.name ++ ": invalid integer value: " ++ v))
  else Except.ok (OptVal.str v)

/-- The state of the optparse scan: the stored option values, the collected
positional arguments, a value-taking option waiting for its value word, and
whether a bare -- token has ended option processing. -/
structure ParseSt where
  opts : List (String × OptVal)
  pos : List String
  pending : Option OptDef
  stopped : Bool

/-- One word of the optparse scan, with interspersed positional arguments
(the optparse default).  A long option is written either as one token with
an = sign or takes the following word as its value; a store_false option
takes no value; the bare token -- ends option processing.  Exact option
names only are modelled (optparse additionally accepts unambiguous prefixes
of a long name, which no claim depends on). -/
def parseTok (pdefs : List OptDef) (st : ParseSt) (a : String) : Except PyError ParseSt :=
  match st.pending with
  | some d =>
    match checkVal d a with
    | Except.ok ov =>
      Except.ok { st with opts := setOpt st.opts d.name ov, pending := Option.none }
    | Except.error e => Except.error e
  | Option.none =>
    if st.stopped then Except.ok { st with pos := st.pos ++ [a] }
    else
      match a.data with
      | ['-', '-'] => Except.ok { st with stopped := true }
      | '-' :: '-' :: c :: more =>
        match splitFirstEq (c :: more) with
        | (nmCs, valOpt) =>
          match pdefs.find? (fun d => d.name == String.mk nmCs) with
          | Option.none =>
            Except.error (PyError.optError ("no such option: --" ++ String.mk nmCs))
          | some d =>
            if d.isStoreFalse then
              match valOpt with
              | some _ =>
                Except.error (PyError.optError ("option --" ++ d.name ++ " does not take a value"))
              | Option.none =>
                Except.ok { st with opts := setOpt st.opts d.name (OptVal.bool false) }
            else
              match valOpt with
              | some vcs =>
                match checkVal d (String.mk vcs) with
                | Except.ok ov => Except.ok { st with opts := setOpt st.opts d.name ov }
                | Except.error e => Except.error e
              | Option.none => Except.ok { st with pending := some d }
      | '-' :: c :: _ =>
        Except.error (PyError.optError ("no such option: -" ++ String.mk [c]))
      | _ => Except.ok { st with pos := st.pos ++ [a] }

/-- The optparse scan over all argument words. -/
def parseLoop (pdefs : List OptDef) : List String → ParseSt → Except PyError ParseSt
  | [], st => Except.ok st
  | a :: rest, st =>
    match parseTok pdefs st a with
    | Except.ok st2 => parseLoop pdefs rest st2
    | Except.error e => Except.error e

/-- `parser.parse_args(args)`: the stored option values and the positional
arguments, or the optparse error.  An option still waiting for its value at
the end of the scan is the optparse missing-argument error. -/
def parseOpts (pdefs : List OptDef) (args : List String)
    (defaults : List (String × OptVal)) :
    Except PyError (List (String × OptVal) × List String) :=
  match parseLoop pdefs args ⟨defaults, [], Option.none, false⟩ with
  | Except.error e => Except.error e
  | Except.ok st =>
    match st.pending with
    | some d => Except.error (PyError.optError ("--" ++ d.name ++ " option requires an argument"))
    | Option.none => Except.ok (st.opts, st.pos)

/-- Python truthiness of a stored option value, for `if options[..]:`. -/
def pyTruthy : OptVal → Bool
  | OptVal.bool b => b
  | OptVal.int i => i != 0
  | OptVal.str s => s != ""
  | OptVal.none => false

/-- The int held by an option declared with type=int; the other cases are
unreachable for such options and are mapped like Python int coercion of a
bool, else 0. -/
def toIntVal : OptVal → Int
  | OptVal.int i => i
  | OptVal.bool b => if b then 1 else 0
  | _ => 0

/-- How str.format renders an option value into a message. -/
def pyFormatVal : OptVal → String
  | OptVal.str s => s
  | OptVal.int i => toString i
  | OptVal.bool b => if b then "True" else "False"
  | OptVal.none => "None"

/-- A configuration entry used as an option default. -/
def optOfStr : Option String → OptVal
  | some s => OptVal.str s
  | Option.none => OptVal.none

/-- Python s.split with a comma separator; the result is never empty
(splitting the empty string yields one empty field). -/
def splitCommaAux : List Char → List (List Char)
  | [] => [[]]
  | c :: cs =>
    match splitCommaAux cs with
    | [] => [[]]
    | h :: t => if c = ',' then [] :: h :: t else (c :: h) :: t

/-- Python s.split with a comma separator, on strings. -/
def pySplit (s : String) : List String :=
  (splitCommaAux s.data).map (fun cs => String.mk cs)

/-- Python slicing l[:n] for a possibly negative n. -/
def pySliceTo {α : Type} (l : List α) (n : Int) : List α :=
  if 0 ≤ n then l.take n.toNat else l.take (l.length - (-n).toNat)

/-- Modelled from the external libcloud SDK: NodeState.tostring maps the
numeric node state to its symbolic name. -/
def NodeState.tostring : Nat → String
  | 0 => "RUNNING"
  | 1 => "REBOOTING"
  | 2 => "TERMINATED"
  | 3 => "PENDING"
  | 4 => "UNKNOWN"
  | 5 => "STOPPED"
  | _ => "UNKNOWN"

/-- Python repr of a detail value, as str.format renders the details dict. -/
def pyReprVal : PyVal → String
  | PyVal.str s => "\x27" ++ s ++ "\x27"
  | PyVal.strList l =>
    "[" ++ String.intercalate ", " (l.map (fun s => "\x27" ++ s ++ "\x27")) ++ "]"

/-- Python repr of the details dict, as str.format renders it. -/
def pyReprDict (d : List (String × PyVal)) : String :=
  "\x7b" ++
    String.intercalate ", " (d.map (fun kv => "\x27" ++ kv.1 ++ "\x27: " ++ pyReprVal kv.2)) ++
    "\x7d"

/-- The `_find_instance_by_name` scan: the first listed node with the given
name, if any. -/
def find_instance_by_name (nodes : List Node) (name : String) : Option Node :=
  nodes.find? (fun n => n.name == name)

/-- The `_basic_instance_details` projection: the details dict for the named
instance, or the one-entry error dict.  It is computed from the node list
passed in (the live listing of the current query); nothing is cached. -/
def basic_instance_details (nodes : List Node) (name : String) : List (String × PyVal) :=
  match find_instance_by_name nodes name with
  | some nd =>
    [("id", PyVal.str nd.id),
     ("status", PyVal.str (NodeState.tostring nd.state)),
     ("ip-private", PyVal.strList nd.private_ips),
     ("ip-public", PyVal.strList nd.public_ips),
     ("security_groups", PyVal.strList nd.groups),
     ("keypair", PyVal.str nd.key_name),
     ("instance_type", PyVal.str nd.instance_type)]
  | Option.none =>
    [("error", PyVal.str ("instance named " ++ name ++ " not found."))]

/-- The loop of `aws_create` over the split tag string.  Its body evaluates
the name `keys`, which is unbound in the function (the loop variable is
`t_tags`), so the first iteration raises NameError; the split list is never
empty, hence the loop always raises when the tags option was supplied. -/
def tagLoop (base : List (String × String)) :
    List String → Except PyError (List (String × String))
  | [] => Except.ok base
  | _ :: _ => Except.error (PyError.nameError "keys")

/-- The `if options[tags] is not None:` step of `aws_create`.  A stored tags
value is always a string; the remaining cases are unreachable. -/
def tagsStep (base : List (String × String)) : OptVal → Except PyError (List (String × String))
  | OptVal.none => Except.ok base
  | OptVal.str s => tagLoop base (pySplit s)
  | _ => Except.ok base

/-- Python equality of a stored option value against a size id string
(a string equals only an equal string; None equals no string). -/
def optValEqStr (v : OptVal) (s : String) : Bool :=
  match v with
  | OptVal.str t => s == t
  | _ => false

/-- The instance-type lookup of `aws_create`: index 0 of the filtered size
list, `Option.none` when the filter is empty (Python IndexError). -/
def sizeLookup (sizes : List NodeSize) (ity : OptVal) : Option NodeSize :=
  (sizes.filter (fun s => optValEqStr ity s.id)).head?

/-- The loop of `_parse_status_results`: one formatted line per entry, with
the counter starting at the given value and incremented per entry. -/
def status_lines (count : Nat) : List FeedEntry → List String
  | [] => []
  | r :: rs =>
    (toString count ++ ". (" ++ r.published ++ ") " ++ r.title ++ " - " ++ r.summary) ::
      status_lines (count + 1) rs

/-- `_parse_status_results`: the formatted lines joined with single spaces,
counting from 1. -/
def parse_status_results (results : List FeedEntry) : String :=
  String.intercalate " " (status_lines 1 results)

/-- The layout the spec describes for the i-th feed entry (1-based):
the fragment i. (published) title - summary. -/
def statusLineSpec (i : Nat) (e : FeedEntry) : String :=
  toString i ++ ". (" ++ e.published ++ ") " ++ e.title ++ " - " ++ e.summary

/-- The feed url built by `aws_status` from the service and region options. -/
def statusUrl (service region : OptVal) : String :=
  "http://status.aws.amazon.com/rss/" ++ pyFormatVal service ++ "-" ++ pyFormatVal region ++ ".rss"

/-- The state a handler invocation can observe or change: the plugin
configuration, the provider state seen through the SDK (node and size
listings, the results of reboot/destroy requests per node id), the feed
contents per url, and the process-global socket default timeout. -/
structure World where
  config : Config
  nodes : List Node
  sizes : List NodeSize
  rebootOk : String → Bool
  destroyOk : String → Bool
  feeds : String → List FeedEntry
  socketDefaultTimeout : Option Int

/-- The observable outcome of one handler invocation: the state after the
call, the chat messages sent in order, the SDK operations performed in
order, and the exception raised, if any. -/
structure Outcome where
  world : World
  sent : List String
  ops : List SdkOp
  error : Option PyError

/-- Handler `aws_info` (args split on spaces by the bot framework). -/
def aws_info (w : World) (args : List String) : Outcome :=
  match args with
  | [] => ⟨w, [], [], some PyError.indexError⟩
  | vmname :: _ =>
    ⟨w,
     [vmname ++ ": " ++ pyReprDict (basic_instance_details w.nodes vmname)],
     [SdkOp.connect, SdkOp.listNodes],
     Option.none⟩

/-- Handler `aws_reboot` (args passed as the whole argument string).  When no
instance has the given name, `vm` is None and `vm.reboot()` raises
AttributeError. -/
def aws_reboot (w : World) (args : String) : Outcome :=
  match find_instance_by_name w.nodes args with
  | Option.none => ⟨w, [], [SdkOp.connect, SdkOp.listNodes], some (PyError.attributeError "reboot")⟩
  | some vm =>
    ⟨w,
     [vm.name ++ ": " ++
       (if w.rebootOk vm.id then "Successfully sent request to reboot."
        else "Unable to complete request.")],
     [SdkOp.connect, SdkOp.listNodes, SdkOp.rebootNode vm.id],
     Option.none⟩

/-- Handler `aws_terminate` (args passed as the whole argument string). -/
def aws_terminate (w : World) (args : String) : Outcome :=
  match find_instance_by_name w.nodes args with
  | Option.none => ⟨w, [], [SdkOp.connect, SdkOp.listNodes], some (PyError.attributeError "destroy")⟩
  | some vm =>
    ⟨w,
     [vm.name ++ ": " ++
       (if w.destroyOk vm.id then "Successfully sent request to terminate instance."
        else "Unable to complete request.")],
     [SdkOp.connect, SdkOp.listNodes, SdkOp.destroyNode vm.id],
     Option.none⟩

/-- The option table of `aws_create`. -/
def createDefs : List OptDef :=
  [⟨"ami", false, false⟩, ⟨"size", true, false⟩, ⟨"subnet_id", false, false⟩,
   ⟨"route_table_id", false, false⟩, ⟨"instance_type", false, false⟩,
   ⟨"tags", false, false⟩, ⟨"keypair", false, false⟩, ⟨"puppet", false, true⟩]

/-- The option defaults of `aws_create`, drawn from the configuration. -/
def createDefaults (cfg : Config) : List (String × OptVal) :=
  [("ami", optOfStr cfg.ami), ("size", OptVal.int 15),
   ("subnet_id", optOfStr cfg.subnet_id), ("route_table_id", optOfStr cfg.route_table_id),
   ("instance_type", optOfStr cfg.instance_type), ("tags", OptVal.none),
   ("keypair", optOfStr cfg.keypair), ("puppet", OptVal.bool cfg.puppet)]

/-- Handler `aws_create`.  The subnet association and the block-device
mapping literal are built locally and have no observable effect beyond the
`create_node` arguments, which are not recorded in the trace except for the
instance name and metadata. -/
def aws_create (w : World) (args : List String) : Outcome :=
  match parseOpts createDefs args (createDefaults w.config) with
  | Except.error e => ⟨w, [], [], some e⟩
  | Except.ok (opts, t_args) =>
    match t_args with
    | [] => ⟨w, [], [], some PyError.indexError⟩
    | vmname :: _ =>
      match tagsStep [("Name", vmname), ("team", "systems")] (getOpt opts "tags") with
      | Except.error e => ⟨w, [], [], some e⟩
      | Except.ok tags =>
        match sizeLookup w.sizes (getOpt opts "instance_type") with
        | Option.none => ⟨w, [], [SdkOp.connect, SdkOp.listSizes], some PyError.indexError⟩
        | some _ =>
          ⟨w,
           [vmname ++ ": [1/3] Creating instance",
            vmname ++ ": [2/3] Running post setup"] ++
           (if pyTruthy (getOpt opts "puppet") then [vmname ++ ": Running puppet [disabled]"]
            else []) ++
           [vmname ++ ": [3/3] Request completed",
            vmname ++ ": " ++ pyReprDict (basic_instance_details w.nodes vmname)],
           [SdkOp.connect, SdkOp.listSizes, SdkOp.createNode vmname tags,
            SdkOp.connect, SdkOp.listNodes],
           Option.none⟩

/-- The option table of `aws_status`. -/
def statusDefs : List OptDef :=
  [⟨"service", false, false⟩, ⟨"timeout", true, false⟩,
   ⟨"region", false, false⟩, ⟨"entries", true, false⟩]

/-- The option defaults of `aws_status`. -/
def statusDefaults : List (String × OptVal) :=
  [("service", OptVal.str "ec2"), ("timeout", OptVal.int 5),
   ("region", OptVal.str "us-east-1"), ("entries", OptVal.int 1)]

/-- Handler `aws_status`.  It reads the old socket default timeout into a
local variable, sets the process-global default timeout to the timeout
option, and returns without restoring the old value. -/
def aws_status (w : World) (args : List String) : Outcome :=
  match parseOpts statusDefs args statusDefaults with
  | Except.error e => ⟨w, [], [], some e⟩
  | Except.ok (opts, _) =>
    let w1 : World := { w with socketDefaultTimeout := some (toIntVal (getOpt opts "timeout")) }
    let url := statusUrl (getOpt opts "service") (getOpt opts "region")
    let entries := w.feeds url
    if entries.length < 1 then
      ⟨w1, ["No entries found."], [SdkOp.fetchFeed url], Option.none⟩
    else
      ⟨w1,
       [parse_status_results (pySliceTo entries (toIntVal (getOpt opts "entries"))) ++
          " Source: " ++ url],
       [SdkOp.fetchFeed url], Option.none⟩

/-- A concrete configuration: the template defaults (everything unset,
puppet False). -/
def cfg0 : Config :=
  ⟨Option.none, Option.none, Option.none, Option.none, Option.none, Option.none,
   1, Option.none, Option.none, false⟩

/-- A concrete node for witnesses. -/
def node0 : Node :=
  ⟨"i-123", "vm1", 0, ["10.0.0.1"], ["54.0.0.1"], ["default"], "key1", "t2.micro"⟩

/-- A concrete size for witnesses. -/
def size0 : NodeSize := ⟨"t2.micro", "t2.micro"⟩

/-- A concrete feed entry for witnesses. -/
def entry0 : FeedEntry :=
  ⟨"Mon, 01 Jan 2024", "Service is operating normally", "All clear"⟩

/-- A concrete world for witnesses and counterexamples: the template
configuration, one node, one size, succeeding SDK requests, a one-entry
feed, and no socket default timeout set (the Python default). -/
def world0 : World :=
  ⟨cfg0, [node0], [size0], fun _ => true, fun _ => true, fun _ => [entry0], Option.none⟩

/-- A world whose SDK requests fail, for exercising the failure branch. -/
def worldFail : World :=
  ⟨cfg0, [node0], [size0], fun _ => false, fun _ => false, fun _ => [entry0], Option.none⟩

lemma getOpt_setOpt_ne (opts : List (String × OptVal)) (k : String) (v : OptVal)
    (k' : String) (h : k' ≠ k) : getOpt (setOpt opts k v) k' = getOpt opts k' := by
  induction opts with
  | nil => rfl
  | cons p rest ih =>
    by_cases h1 : p.1 == k
    · have hk : p.1 = k := by simpa using h1
      simp [getOpt, setOpt, List.find?, h1, hk] at ih ⊢
      have h2 : (k == k') = false := by
        simp [Ne.symm h]
      have h3 : (p.1 == k') = false := by
        simp [hk, Ne.symm h]
      simp [h2, h3]
      simpa [getOpt, setOpt] using ih
    · have h1f : (p.1 == k) = false := by simpa using h1
      by_cases h2 : p.1 == k'
      · simp [getOpt, setOpt, List.find?, h1f, h2]
      · have h2f : (p.1 == k') = false := by simpa using h2
        simp [getOpt, setOpt, List.find?, h1f, h2f]
        simpa [getOpt, setOpt] using ih

lemma getOpt_setOpt_self (opts : List (String × OptVal)) (k : String) (v : OptVal) :
    getOpt (setOpt opts k v) k = v ∨ getOpt (setOpt opts k v) k = getOpt opts k := by
  induction opts with
  | nil => right; rfl
  | cons p rest ih =>
    by_cases h1 : p.1 == k
    · left
      simp [getOpt, setOpt, List.find?, h1]
    · have h1f : (p.1 == k) = false := by simpa using h1
      rcases ih with ih | ih
      · left
        simpa [getOpt, setOpt, List.find?, h1f] using ih
      · right
        simpa [getOpt, setOpt, List.find?, h1f] using ih

/-- One scan step can only update a key towards False when every declaration
of that key is store_false, provided no value-taking option of that key is
pending; and no such option becomes pending. -/
lemma parseTok_key (pdefs : List OptDef) (key : String)
    (hpd : ∀ d ∈ pdefs, d.name = key → d.isStoreFalse = true)
    (st : ParseSt) (a : String) (st2 : ParseSt)
    (hp : ∀ d, st.pending = some d → d.name ≠ key)
    (h : parseTok pdefs st a = Except.ok st2) :
    (getOpt st2.opts key = getOpt st.opts key ∨ getOpt st2.opts key = OptVal.bool false)
      ∧ (∀ d, st2.pending = some d → d.name ≠ key) := by
  unfold parseTok at h
  split at h
  case h_1 d hpend =>
    have hk := hp d hpend
    split at h
    case h_1 ov hcv =>
      rcases h with ⟨⟩
      refine ⟨Or.inl ?_, by intro d2 h2; exact absurd h2 (by simp)⟩
      exact getOpt_setOpt_ne st.opts d.name ov key (fun he => hk he.symm)
    case h_2 => exact absurd h (by simp)
  case h_2 hpend =>
    split at h
    · rcases h with ⟨⟩
      exact ⟨Or.inl rfl, fun d h2 => hp d h2⟩
    · split at h
      case h_1 =>
        rcases h with ⟨⟩
        exact ⟨Or.inl rfl, fun d h2 => hp d h2⟩
      case h_2 c more heq =>
        rcases hsp : splitFirstEq (c :: more) with ⟨nmCs, valOpt⟩
        rw [hsp] at h
        dsimp only at h
        split at h
        case h_1 => exact absurd h (by simp)
        case h_2 d hfind =>
            split at h
            case isTrue hsf =>
              split at h
              case h_1 => exact absurd h (by simp)
              case h_2 =>
                rcases h with ⟨⟩
                refine ⟨?_, by intro d2 h2; exact hp d2 h2⟩
                by_cases hk : key = d.name
                · rcases getOpt_setOpt_self st.opts d.name (OptVal.bool false) with h3 | h3
                  · right; rw [hk, h3]
                  · left; rw [hk, h3]
                · left; exact getOpt_setOpt_ne st.opts d.name (OptVal.bool false) key hk
            case isFalse hsf =>
              have hk : key ≠ d.name := by
                intro hk
                exact hsf (hpd d (List.mem_of_find?_eq_some hfind) hk.symm)
              split at h
              case h_1 vcs =>
                split at h
                case h_1 ov hcv =>
                  rcases h with ⟨⟩
                  exact ⟨Or.inl (getOpt_setOpt_ne st.opts d.name ov key hk),
                         fun d2 h2 => hp d2 h2⟩
                case h_2 => exact absurd h (by simp)
              case h_2 =>
                rcases h with ⟨⟩
                refine ⟨Or.inl rfl, ?_⟩
                intro d2 h2
                simp only [Option.some.injEq] at h2
                rw [← h2]
                exact fun he => hk he.symm
      case h_3 => exact absurd h (by simp)
      case h_4 =>
        rcases h with ⟨⟩
        exact ⟨Or.inl rfl, fun d h2 => hp d h2⟩

/-- Over the whole scan, a key whose every declaration is store_false ends
at its starting value or at False. -/
lemma parseLoop_key (pdefs : List OptDef) (key : String)
    (hpd : ∀ d ∈ pdefs, d.name = key → d.isStoreFalse = true) :
    ∀ (args : List String) (st : ParseSt) (st2 : ParseSt),
      (∀ d, st.pending = some d → d.name ≠ key) →
      parseLoop pdefs args st = Except.ok st2 →
      getOpt st2.opts key = getOpt st.opts key ∨ getOpt st2.opts key = OptVal.bool false := by
  intro args
  induction args with
  | nil =>
    intro st st2 hp h
    rcases h with ⟨⟩
    exact Or.inl rfl
  | cons a rest ih =>
    intro st st2 hp h
    unfold parseLoop at h
    split at h
    case h_1 st1 hstep =>
      rcases parseTok_key pdefs key hpd st a st1 hp hstep with ⟨h1, h2⟩
      rcases ih st1 st2 h2 h with h3 | h3
      · rcases h1 with h1 | h1
        · exact Or.inl (h3.trans h1)
        · exact Or.inr (h3.trans h1)
      · exact Or.inr h3
    case h_2 => exact absurd h (by simp)

/-- The parsed value of a key whose every declaration is store_false is its
default value or False. -/
lemma parseOpts_key (pdefs : List OptDef) (key : String)
    (hpd : ∀ d ∈ pdefs, d.name = key → d.isStoreFalse = true)
    (args : List String) (defaults : List (String × OptVal))
    (r : List (String × OptVal) × List String)
    (h : parseOpts pdefs args defaults = Except.ok r) :
    getOpt r.1 key = getOpt defaults key ∨ getOpt r.1 key = OptVal.bool false := by
  unfold parseOpts at h
  split at h
  case h_1 => exact absurd h (by simp)
  case h_2 st hloop =>
    split at h
    case h_1 => exact absurd h (by simp)
    case h_2 =>
      rcases h with ⟨⟩
      exact parseLoop_key pdefs key hpd args ⟨defaults, [], Option.none, false⟩ st
        (by intro d hd; exact absurd hd (by simp)) hloop

lemma str_eq_of_data (a b : String) (h : a.data = b.data) : a = b := by
  cases a
  cases b
  exact congrArg String.mk h

lemma append_length_ne (a b c : String) (h : b.length ≠ c.length) : a ++ b ≠ a ++ c := by
  intro he
  apply h
  have h2 := congrArg String.length he
  simp only [String.length_append] at h2
  omega

lemma append_last_ne (a b c d : String) (x y : Char)
    (hb : b.data.getLast? = some x) (hd : d.data.getLast? = some y) (hxy : x ≠ y) :
    a ++ b ≠ c ++ d := by
  intro he
  have h2 := congrArg (fun s => s.data.getLast?) he
  simp only [String.data_append, List.getLast?_append, hb, hd] at h2
  simp at h2
  exact hxy h2

lemma filter_head?_eq_find? {α : Type} (p : α → Bool) (l : List α) :
    (l.filter p).head? = l.find? p := by
  induction l with
  | nil => rfl
  | cons a rest ih =>
    by_cases hpa : p a
    · simp [List.filter, List.find?, hpa]
    · have hf : p a = false := by simpa using hpa
      simp [List.filter, List.find?, hf, ih]

lemma status_lines_enumFrom (c : Nat) (l : List FeedEntry) :
    status_lines c l = (List.enumFrom c l).map (fun p => statusLineSpec p.1 p.2) := by
  induction l generalizing c with
  | nil => rfl
  | cons r rs ih => simp [status_lines, List.enumFrom, statusLineSpec, ih]

lemma pyReprDict_singleton (k : String) (v : PyVal) :
    pyReprDict [(k, v)] = "\x7b" ++ ("\x27" ++ k ++ "\x27: " ++ pyReprVal v) ++ "\x7d" := rfl

lemma pyReprDict_last (d : List (String × PyVal)) :
    (pyReprDict d).data.getLast? = some (Char.ofNat 125) := by
  have h : ("\x7d" : String).data.getLast? = some (Char.ofNat 125) := by decide
  unfold pyReprDict
  simp only [String.data_append, List.getLast?_append, h]
  simp

/-- Claim C7: `_parse_status_results` renders the i-th entry (1-based, in
input order) as the fragment i. (published) title - summary, joins the
fragments with single spaces, and renders the empty entry list as the empty
string. -/
theorem parse_status_results_layout (l : List FeedEntry) :
    parse_status_results l =
      String.intercalate " " ((List.enumFrom 1 l).map (fun p => statusLineSpec p.1 p.2))
  ∧ parse_status_results [] = "" :=
  ⟨congrArg (String.intercalate " ") (status_lines_enumFrom 1 l), rfl⟩

/-- Claim C8: no handler modifies the configuration mapping: after any
invocation of any of the five handlers the configuration equals the one
loaded at startup, so every configuration read during any invocation yields
the startup value (the handlers read it only from the unchanged state). -/
theorem handlers_preserve_config (w : World) (s : String) (a : List String) :
    (aws_info w a).world.config = w.config
  ∧ (aws_reboot w s).world.config = w.config
  ∧ (aws_terminate w s).world.config = w.config
  ∧ (aws_create w a).world.config = w.config
  ∧ (aws_status w a).world.config = w.config := by
  refine ⟨?_, ?_, ?_, ?_, ?_⟩
  · cases a <;> rfl
  · cases h : find_instance_by_name w.nodes s <;> simp [aws_reboot, h]
  · cases h : find_instance_by_name w.nodes s <;> simp [aws_terminate, h]
  · rcases hp : parseOpts createDefs a (createDefaults w.config) with e | ⟨opts, t⟩
    · simp [aws_create, hp]
    · rcases t with _ | ⟨vm, t2⟩
      · simp [aws_create, hp]
      · rcases ht : tagsStep [("Name", vm), ("team", "systems")] (getOpt opts "tags") with e | tags
        · simp [aws_create, hp, ht]
        · rcases hs : sizeLookup w.sizes (getOpt opts "instance_type") with _ | sz
          · simp [aws_create, hp, ht, hs]
          · simp [aws_create, hp, ht, hs]
  · rcases hp : parseOpts statusDefs a statusDefaults with e | ⟨opts, t⟩
    · simp [aws_status, hp]
    · by_cases hl : (w.feeds (statusUrl (getOpt opts "service") (getOpt opts "region"))).length < 1
      · simp [aws_status, hp, hl]
      · simp [aws_status, hp, hl]

/-- Claim C4: for a name matching a listed node, the instance-detail lookup
returns a mapping with exactly the keys id, status, ip-private, ip-public,
security_groups, keypair and instance_type, each the corresponding field of
the (first) node of that name in the listing passed in.  The projection is
computed from the node list of the current query; no state of `World` or of
any definition here stores it between queries. -/
theorem basic_instance_details_fields (nodes : List Node) (name : String) (vm : Node)
    (h : find_instance_by_name nodes name = some vm) :
    basic_instance_details nodes name =
      [("id", PyVal.str vm.id),
       ("status", PyVal.str (NodeState.tostring vm.state)),
       ("ip-private", PyVal.strList vm.private_ips),
       ("ip-public", PyVal.strList vm.public_ips),
       ("security_groups", PyVal.strList vm.groups),
       ("keypair", PyVal.str vm.key_name),
       ("instance_type", PyVal.str vm.instance_type)]
  ∧ (basic_instance_details nodes name).map Prod.fst =
      ["id", "status", "ip-private", "ip-public", "security_groups", "keypair",
       "instance_type"] := by
  constructor
  · simp [basic_instance_details, h]
  · simp [basic_instance_details, h]

/-- Witness for C4 at a concrete node list and name. -/
theorem basic_instance_details_fields_witness :
    basic_instance_details [node0] "vm1" =
      [("id", PyVal.str node0.id),
       ("status", PyVal.str (NodeState.tostring node0.state)),
       ("ip-private", PyVal.strList node0.private_ips),
       ("ip-public", PyVal.strList node0.public_ips),
       ("security_groups", PyVal.strList node0.groups),
       ("keypair", PyVal.str node0.key_name),
       ("instance_type", PyVal.str node0.instance_type)]
  ∧ (basic_instance_details [node0] "vm1").map Prod.fst =
      ["id", "status", "ip-private", "ip-public", "security_groups", "keypair",
       "instance_type"] :=
  basic_instance_details_fields [node0] "vm1" node0 rfl

/-- Claim C5: when no listed node has the given name, `aws_info` sends
exactly one message, that message contains the text instance named name
not found., and the only SDK operations performed are the connection and the
node listing. -/
theorem aws_info_not_found (w : World) (name : String) (rest : List String)
    (h : find_instance_by_name w.nodes name = Option.none) :
    (aws_info w (name :: rest)).sent.length = 1
  ∧ (∃ pre post, (aws_info w (name :: rest)).sent =
      [pre ++ ("instance named " ++ name ++ " not found.") ++ post])
  ∧ (aws_info w (name :: rest)).ops = [SdkOp.connect, SdkOp.listNodes] := by
  refine ⟨rfl, ?_, rfl⟩
  refine ⟨name ++ ": " ++ "\x7b" ++ "\x27" ++ "error" ++ "\x27: " ++ "\x27",
          "\x27" ++ "\x7d", ?_⟩
  simp only [aws_info, basic_instance_details, h, pyReprDict_singleton, pyReprVal,
    List.cons.injEq, and_true]
  apply str_eq_of_data
  simp only [String.data_append, List.append_assoc]

/-- Witness for C5 at a concrete world and unmatched name. -/
theorem aws_info_not_found_witness :
    (aws_info world0 ["ghost"]).sent.length = 1
  ∧ (∃ pre post, (aws_info world0 ["ghost"]).sent =
      [pre ++ ("instance named " ++ "ghost" ++ " not found.") ++ post])
  ∧ (aws_info world0 ["ghost"]).ops = [SdkOp.connect, SdkOp.listNodes] :=
  aws_info_not_found world0 "ghost" [] rfl

/-- Claim C3: when an instance of the given name exists, `aws_reboot` and
`aws_terminate` each send exactly one response line, carrying the success
text precisely when the SDK reboot (resp. destroy) request returns a truthy
result, and the text Unable to complete request. otherwise. -/
theorem reboot_terminate_response (w : World) (name : String) (vm : Node)
    (h : find_instance_by_name w.nodes name = some vm) :
    ((aws_reboot w name).sent =
        [vm.name ++ ": " ++ "Successfully sent request to reboot."]
      ↔ w.rebootOk vm.id = true)
  ∧ (w.rebootOk vm.id = false →
      (aws_reboot w name).sent = [vm.name ++ ": " ++ "Unable to complete request."])
  ∧ ((aws_terminate w name).sent =
        [vm.name ++ ": " ++ "Successfully sent request to terminate instance."]
      ↔ w.destroyOk vm.id = true)
  ∧ (w.destroyOk vm.id = false →
      (aws_terminate w name).sent = [vm.name ++ ": " ++ "Unable to complete request."])
  ∧ (aws_reboot w name).sent.length = 1
  ∧ (aws_terminate w name).sent.length = 1 := by
  refine ⟨?_, ?_, ?_, ?_, ?_, ?_⟩
  · constructor
    · intro hs
      by_cases hr : w.rebootOk vm.id
      · exact hr
      · have hf : w.rebootOk vm.id = false := by simpa using hr
        simp only [aws_reboot, h, hf, if_false, List.cons.injEq, and_true] at hs
        exact absurd hs (append_length_ne (vm.name ++ ": ") _ _ (by decide))
    · intro hr
      simp [aws_reboot, h, hr]
  · intro hf
    simp [aws_reboot, h, hf]
  · constructor
    · intro hs
      by_cases hr : w.destroyOk vm.id
      · exact hr
      · have hf : w.destroyOk vm.id = false := by simpa using hr
        simp only [aws_terminate, h, hf, if_false, List.cons.injEq, and_true] at hs
        exact absurd hs (append_length_ne (vm.name ++ ": ") _ _ (by decide))
    · intro hr
      simp [aws_terminate, h, hr]
  · intro hf
    simp [aws_terminate, h, hf]
  · cases hr : w.rebootOk vm.id <;> simp [aws_reboot, h, hr]
  · cases hr : w.destroyOk vm.id <;> simp [aws_terminate, h, hr]

/-- Witness for C3: a truthy reboot result and a falsy destroy result, at a
concrete world holding the named instance. -/
theorem reboot_terminate_response_witness :
    (aws_reboot world0 "vm1").sent =
      [node0.name ++ ": " ++ "Successfully sent request to reboot."]
  ∧ (aws_terminate worldFail "vm1").sent =
      [node0.name ++ ": " ++ "Unable to complete request."] :=
  ⟨(reboot_terminate_response world0 "vm1" node0 rfl).1.mpr rfl,
   (reboot_terminate_response worldFail "vm1" node0 rfl).2.2.2.1 rfl⟩

/-- Claim C10: the create handler's instance-type lookup indexes the
filtered size list at position 0, so it yields the first listed size whose
id equals the instance_type option; it succeeds exactly when some listed
size has that id, making the IndexError branch unreachable under that
precondition; and when no size matches, the handler raises IndexError. -/
theorem sizeLookup_first_match (sizes : List NodeSize) (t : String) :
    sizeLookup sizes (OptVal.str t) = sizes.find? (fun s => s.id == t)
  ∧ ((∃ z, sizeLookup sizes (OptVal.str t) = some z) ↔ ∃ s ∈ sizes, s.id = t)
  ∧ (∀ (w : World) (args : List String) (opts : List (String × OptVal))
       (t_args : List String) (v : String) (rest : List String),
       parseOpts createDefs args (createDefaults w.config) = Except.ok (opts, t_args) →
       t_args = v :: rest →
       getOpt opts "tags" = OptVal.none →
       ((aws_create w args).error = some PyError.indexError ↔
         sizeLookup w.sizes (getOpt opts "instance_type") = Option.none)) := by
  have h1 : sizeLookup sizes (OptVal.str t) = sizes.find? (fun s => s.id == t) := by
    simp [sizeLookup, optValEqStr, filter_head?_eq_find?]
  refine ⟨h1, ?_, ?_⟩
  · rw [h1]
    constructor
    · rintro ⟨z, hz⟩
      exact ⟨z, List.mem_of_find?_eq_some hz, by simpa using List.find?_some hz⟩
    · rintro ⟨s, hmem, hid⟩
      have h2 : (sizes.find? (fun s => s.id == t)).isSome := by
        rw [List.find?_isSome]
        exact ⟨s, hmem, by simpa using hid⟩
      rcases ho : sizes.find? (fun s => s.id == t) with _ | z
      · rw [ho] at h2; simp at h2
      · exact ⟨z, ho⟩
  · intro w args opts t_args v rest hp hta htags
    subst hta
    rcases hs : sizeLookup w.sizes (getOpt opts "instance_type") with _ | sz
    · simp [aws_create, hp, htags, tagsStep, hs]
    · simp [aws_create, hp, htags, tagsStep, hs]

/-- Witness for C10: with no instance_type configured and no sizes matching,
the create handler raises IndexError. -/
theorem sizeLookup_first_match_witness :
    (aws_create world0 ["vm1"]).error = some PyError.indexError :=
  ((sizeLookup_first_match [] "x").2.2 world0 ["vm1"] (createDefaults cfg0) ["vm1"] "vm1" []
    rfl rfl rfl).mpr rfl

/-- Claim C2 fails on the code: `aws_status` mutates process-global state.
Starting from a world whose socket default timeout is unset (the Python
default), a plain status invocation returns normally with the global
default timeout left set to 5: the handler saved the old value into a local
it never uses and never restores it. -/
theorem aws_status_socket_timeout_mutation :
    (aws_status world0 [""]).world.socketDefaultTimeout = some 5
  ∧ world0.socketDefaultTimeout = Option.none
  ∧ (aws_status world0 [""]).error = Option.none :=
  ⟨rfl, rfl, rfl⟩

/-- Claim C1 fails on the code: with any --tags option, the create handler
raises NameError (the tag-loop body reads the unbound name keys; the loop
variable is t_tags) before connecting to the SDK, so no create_node call is
made and no metadata mapping is ever built from the tag string. -/
theorem aws_create_tags_name_error :
    (aws_create world0 ["--tags=k1=v1", "server1"]).error = some (PyError.nameError "keys")
  ∧ (aws_create world0 ["--tags=k1=v1", "server1"]).sent = []
  ∧ (aws_create world0 ["--tags=k1=v1", "server1"]).ops = [] :=
  ⟨rfl, rfl, rfl⟩

/-- Claim C6: `aws_status` sends exactly the one line No entries found. when
the parsed feed has no entries, and otherwise the formatted first n entries
(n the entries option, default 1) followed by the feed source url. -/
theorem aws_status_entries (w : World) (args : List String)
    (opts : List (String × OptVal)) (t_args : List String) (n : Int)
    (hp : parseOpts statusDefs args statusDefaults = Except.ok (opts, t_args))
    (hn : getOpt opts "entries" = OptVal.int n) (hge : 0 ≤ n) :
    (w.feeds (statusUrl (getOpt opts "service") (getOpt opts "region")) = [] →
      (aws_status w args).sent = ["No entries found."])
  ∧ (∀ es, w.feeds (statusUrl (getOpt opts "service") (getOpt opts "region")) = es →
      es ≠ [] →
      (aws_status w args).sent =
        [parse_status_results (es.take n.toNat) ++ " Source: " ++
          statusUrl (getOpt opts "service") (getOpt opts "region")]) := by
  constructor
  · intro he
    simp [aws_status, hp, he]
  · intro es hes hne
    have hlen : ¬ es.length < 1 := by
      cases es
      · exact absurd rfl hne
      · simp
    simp [aws_status, hp, hes, hlen, hn, pySliceTo, toIntVal, hge]

/-- Witness for C6: the default options on a one-entry feed. -/
theorem aws_status_entries_witness :
    (aws_status world0 [""]).sent =
      [parse_status_results ([entry0].take (1 : Int).toNat) ++ " Source: " ++
        statusUrl (getOpt statusDefaults "service") (getOpt statusDefaults "region")] :=
  (aws_status_entries world0 [""] statusDefaults [""] 1 rfl rfl (by decide)).2
    [entry0] rfl (by simp)

/-- Claim C9: the --puppet flag is declared store_false, so parsing can only
leave the puppet option at its configured default or set it to False;
supplying --puppet yields False; hence with the configured default False the
Running puppet message is sent for no possible argument list, and passing
--puppet can never enable the puppet step. -/
theorem aws_create_puppet_store_false (w : World) (args : List String) :
    (∀ r, parseOpts createDefs args (createDefaults w.config) = Except.ok r →
      getOpt r.1 "puppet" = OptVal.bool w.config.puppet
        ∨ getOpt r.1 "puppet" = OptVal.bool false)
  ∧ (∀ rest r,
      parseOpts createDefs ("--puppet" :: rest) (createDefaults w.config) = Except.ok r →
      getOpt r.1 "puppet" = OptVal.bool false)
  ∧ (w.config.puppet = false →
      ∀ v, (v ++ ": Running puppet [disabled]") ∉ (aws_create w args).sent) := by
  refine ⟨?_, ?_, ?_⟩
  · intro r h
    rcases parseOpts_key createDefs "puppet" (by decide) args _ r h with h2 | h2
    · left
      exact h2
    · right
      exact h2
  · intro rest r h
    have hstep : parseLoop createDefs ("--puppet" :: rest)
        ⟨createDefaults w.config, [], Option.none, false⟩ =
        parseLoop createDefs rest
        ⟨setOpt (createDefaults w.config) "puppet" (OptVal.bool false), [], Option.none,
         false⟩ := by
      rw [parseLoop.eq_def]
      rfl
    have h2 : parseOpts createDefs rest
        (setOpt (createDefaults w.config) "puppet" (OptVal.bool false)) = Except.ok r := by
      unfold parseOpts
      rw [← hstep]
      unfold parseOpts at h
      exact h
    rcases parseOpts_key createDefs "puppet" (by decide) rest _ r h2 with h3 | h3
    · exact h3.trans rfl
    · exact h3
  · intro hp v
    rcases hps : parseOpts createDefs args (createDefaults w.config) with e | ⟨opts, t⟩
    · simp [aws_create, hps]
    · rcases t with _ | ⟨vm, t2⟩
      · simp [aws_create, hps]
      · rcases ht : tagsStep [("Name", vm), ("team", "systems")] (getOpt opts "tags")
          with e | tags
        · simp [aws_create, hps, ht]
        · rcases hs : sizeLookup w.sizes (getOpt opts "instance_type") with _ | sz
          · simp [aws_create, hps, ht, hs]
          · have hpv : pyTruthy (getOpt opts "puppet") = false := by
              rcases parseOpts_key createDefs "puppet" (by decide) args
                  (createDefaults w.config) (opts, vm :: t2) hps with h4 | h4
              · have h6 : getOpt opts "puppet" = OptVal.bool false := by
                  rw [← hp]
                  exact h4
                rw [h6]
                rfl
              · have h6 : getOpt opts "puppet" = OptVal.bool false := h4
                rw [h6]
                rfl
            have hsent : (aws_create w args).sent =
                [vm ++ ": [1/3] Creating instance",
                 vm ++ ": [2/3] Running post setup",
                 vm ++ ": [3/3] Request completed",
                 vm ++ ": " ++ pyReprDict (basic_instance_details w.nodes vm)] := by
              simp [aws_create, hps, ht, hs, hpv]
            rw [hsent]
            intro hmem
            simp only [List.mem_cons, List.not_mem_nil, or_false] at hmem
            rcases hmem with h1 | h1 | h1 | h1
            · exact append_last_ne v _ vm _ (Char.ofNat 93) (Char.ofNat 101)
                (by decide) (by decide) (by decide) h1
            · exact append_last_ne v _ vm _ (Char.ofNat 93) (Char.ofNat 112)
                (by decide) (by decide) (by decide) h1
            · exact append_last_ne v _ vm _ (Char.ofNat 93) (Char.ofNat 100)
                (by decide) (by decide) (by decide) h1
            · exact append_last_ne v _ (vm ++ ": ") _ (Char.ofNat 93) (Char.ofNat 125)
                (by decide) (pyReprDict_last _) (by decide) h1

/-- Witness for C9: parsing --puppet stores False, and the puppet message is
absent from a concrete create invocation that passes --puppet with the
default configuration. -/
theorem aws_create_puppet_store_false_witness :
    getOpt (setOpt (createDefaults cfg0) "puppet" (OptVal.bool false), ["vm1"]).1 "puppet" =
      OptVal.bool false
  ∧ ("vm1" ++ ": Running puppet [disabled]") ∉ (aws_create world0 ["--puppet", "vm1"]).sent :=
  ⟨(aws_create_puppet_store_false world0 ["--puppet", "vm1"]).2.1 ["vm1"]
      (setOpt (createDefaults cfg0) "puppet" (OptVal.bool false), ["vm1"]) rfl,
   (aws_create_puppet_store_false world0 ["--puppet", "vm1"]).2.2 rfl "vm1"⟩

end ErrAws
